import Mathlib

/-!
Verification development for the session workflow engine of the
conversational data-cleaning assistant.

The embedding below follows `src/DataLLM/model.py` (the primary
implementation; `src/customAI/backend.py` is a near-duplicate of the same
engine).  Conventions of the shallow embedding:

* A dataset version is identified with the blob of bytes the Snapshot
  Store holds for it (`Blob := List Nat`); the parquet
  serialisation/deserialisation performed by pandas on the way in and out
  of the store is treated as the identity on this content, exactly as the
  spec's blob-level `write`/`read` interface does.
* `MemStore` keys are drawn from a counter (`next`), modelling the
  freshness of `uuid.uuid4()` keys; `_db[key] = blob` becomes prepending
  to an association list, and dictionary lookup is first-match lookup.
* The LLM call plus JSON extraction in `execute_node` is an external
  collaborator; its observable outcome is a `Proposal` (the three parsed
  action shapes, or `malformed` carrying the exception text of the
  failed extraction/parse/unknown-action).  The Code Runner
  (`execute_with_retry`) is a parameter `runner` returning the pair
  `(dataframe, optional error)` exactly as the python function does.
* Python in-place mutation of the pydantic state object becomes explicit
  state passing: each node maps a state (and store) to a new state (and
  store).
-/

namespace DataAgent

set_option maxRecDepth 8000

/-- Dataset content: the bytes stored behind a handle. -/
abbrev Blob := List Nat

/-- `MemStore` of model.py: `_db: dict[str, bytes]` plus the source of
fresh keys (`uuid.uuid4()` modelled as a counter). -/
structure MemStore where
  db : List (Nat × Blob) := []
  next : Nat := 0
deriving DecidableEq

/-- `MemStore.write_df` (and the raw `store._db[key] = blob` writes):
store the blob under a fresh key and return the key. -/
def MemStore.write (σ : MemStore) (b : Blob) : Nat × MemStore :=
  (σ.next, { db := (σ.next, b) :: σ.db, next := σ.next + 1 })

/-- `MemStore.get_df` at blob level: dictionary lookup, `none` when the
key was never produced by this store (python raises `KeyError`). -/
def MemStore.read (σ : MemStore) (k : Nat) : Option Blob :=
  (σ.db.find? (fun p => p.1 == k)).map (fun p => p.2)

/-- The routing values of `AgentState.next_node`:
`Literal["upload", "eda", "human_input", "execute", "undo", "export", "END"]`. -/
inductive Node where
  | upload
  | eda
  | human_input
  | execute
  | undo
  | «export»
  | END
deriving DecidableEq

/-- `UndoEntry` of model.py: a description plus the parquet snapshot
bytes taken before the mutation (the code records bytes, not a handle). -/
structure UndoEntry where
  description : String
  snapshot : Blob
deriving DecidableEq

/-- `AgentState` of model.py.  Empty-string handles (`raw_id = ""`,
`work_id = ""`) are `none`; a set handle is `some key`. -/
structure AgentState where
  raw_id : Option Nat := none
  work_id : Option Nat := none
  history : List UndoEntry := []
  next_node : Node := Node.upload
  user_message : String := ""
  error : Option String := none
  export_filename : String := "cleaned.csv"
  retry_count : Nat := 0
  MAX_RETRIES : Nat := 3
deriving DecidableEq

instance : Inhabited AgentState := ⟨{}⟩

/-- `AgentState.push_undo`: push an undo entry only when `work_id` is a
non-empty key known to the store (`if self.work_id and self.work_id in
store._db`); otherwise silently do nothing.  Python `list.append` keeps
the top of the stack at the tail. -/
def AgentState.push_undo (st : AgentState) (σ : MemStore) (desc : String) : AgentState :=
  match st.work_id with
  | none => st
  | some k =>
    match σ.read k with
    | none => st
    | some b => { st with history := st.history ++ [{ description := desc, snapshot := b }] }

/-- `AgentState.undo`: empty stack is the soft no-op `"Nothing to undo."`;
otherwise pop the top entry (`list.pop`), store its snapshot bytes under a
fresh key (`store._db[str(uuid.uuid4())] = entry.snapshot`), point
`work_id` at that fresh key, and report `"Undone: <description>"`.
Returns the updated state, the updated store, and the returned string. -/
def AgentState.undo (st : AgentState) (σ : MemStore) : AgentState × MemStore × String :=
  match st.history.getLast? with
  | none => (st, σ, "Nothing to undo.")
  | some entry =>
    let key := σ.next
    let σ' : MemStore := { db := (key, entry.snapshot) :: σ.db, next := σ.next + 1 }
    ({ st with history := st.history.dropLast, work_id := some key },
     σ', "Undone: " ++ entry.description)

/-- The `raw_id_immutable` field validator of model.py (`_raw_once` in
modelState.py), embedded as the guard on assigning `raw_id`: if a
non-empty `raw_id` is already recorded and the new value differs, the
assignment is rejected with a validation error (and the state object the
caller holds is unchanged); otherwise the assignment goes through. -/
def AgentState.assign_raw_id (st : AgentState) (v : Option Nat) : Except String AgentState :=
  match st.raw_id with
  | some old => if v ≠ some old then Except.error "raw_id is immutable" else Except.ok { st with raw_id := v }
  | none => Except.ok { st with raw_id := v }

/-- Character-list version of python's substring test (`needle in cmd`):
does the haystack start with the needle? -/
def charsHavePre (n h : List Char) : Bool :=
  match n, h with
  | [], _ => true
  | _ :: _, [] => false
  | a :: n', b :: h' => a == b && charsHavePre n' h'

/-- Does the needle occur anywhere in the haystack? -/
def charsHaveSub (n : List Char) : List Char → Bool
  | [] => charsHavePre n []
  | b :: h => charsHavePre n (b :: h) || charsHaveSub n h

/-- Python's `needle in hay` on strings. -/
def strContains (hay needle : String) : Bool :=
  charsHaveSub needle.data hay.data

/-- The whitespace characters python's `str.strip()` removes. -/
def isSpaceChar (c : Char) : Bool :=
  c == ' ' || c == '\t' || c == '\n' || c == '\r' || c == '\x0b' || c == '\x0c'

/-- Python's `str.strip()`: drop leading and trailing whitespace. -/
def strTrim (s : String) : String :=
  String.mk (((s.data.dropWhile isSpaceChar).reverse.dropWhile isSpaceChar).reverse)

/-- Python's `str.lower()` (over the ASCII commands this engine reads). -/
def strLower (s : String) : String :=
  String.mk (s.data.map Char.toLower)

/-- `human_input_node` of model.py, with the console `input()` made an
explicit argument `msg` and the filename regex search
(`re.search(r'\b(\w+\.csv)\b', msg, re.I)`, an external lexical routine)
an explicit oracle `parseCsv`.  Empty (stripped) input only sets the
prompt message and leaves routing untouched; otherwise the error slot and
retry counter are cleared and `next_node` is chosen from the lowered
command text: substring "undo" → undo, substring "export"/"save" →
export, exactly "exit"/"quit" → END, anything else → execute. -/
def human_input_node (msg : String) (parseCsv : String → Option String)
    (st : AgentState) : AgentState :=
  let m := strTrim msg
  if m = "" then { st with user_message := "Please enter a valid command." }
  else
    let st1 := { st with user_message := m, error := none, retry_count := 0 }
    let st2 :=
      match parseCsv m with
      | some f => { st1 with export_filename := f }
      | none => st1
    let cmd := strLower m
    { st2 with
        next_node :=
          if strContains cmd "undo" then Node.undo
          else if strContains cmd "export" || strContains cmd "save" then Node.«export»
          else if cmd = "exit" || cmd = "quit" then Node.END
          else Node.execute }

/-- Observable outcome of the Proposal Generator call inside
`execute_node`: the LLM response after JSON extraction and parsing.
`malformed` carries the exception text of the extraction/parse failure
("No valid JSON found in LLM response", a `json.loads` error, or
"Unknown action: ...") that the `except` clause formats. -/
inductive Proposal where
  | answer (content : String)
  | clarify (content : String)
  | code (content : String)
  | malformed (msg : String)

/-- The `except Exception` clause of `execute_node`: record the error,
bump the retry counter, retry while strictly under `MAX_RETRIES`,
otherwise hand control back to `human_input`.  Neither `user_message`,
`error` nor `retry_count` is reset here. -/
def errResult (st : AgentState) (σ : MemStore) (msg : String) : AgentState × MemStore :=
  ({ st with
      error := some msg
      retry_count := st.retry_count + 1
      next_node := if st.retry_count + 1 < st.MAX_RETRIES then Node.execute else Node.human_input },
   σ)

/-- `execute_node` of model.py.  `prop` is the parsed Proposal Generator
outcome; `runner` is `execute_with_retry` (the Code Runner), returning
the pair (dataframe, optional error text) exactly as the python function
does.  The `KeyError` that `store.get_df` raises for an unknown/empty
`work_id` lands in the same `except` clause as parse failures; its
python-rendered text is abbreviated here as "KeyError". -/
def execute_node (prop : Proposal) (runner : String → Blob → Blob × Option String)
    (st : AgentState) (σ : MemStore) : AgentState × MemStore :=
  match prop with
  | Proposal.answer c =>
      ({ st with user_message := "🤖 " ++ c, error := none, retry_count := 0,
                 next_node := Node.human_input }, σ)
  | Proposal.clarify c =>
      ({ st with user_message := "❓ " ++ c, error := none, retry_count := 0,
                 next_node := Node.human_input }, σ)
  | Proposal.code c =>
      let st1 := st.push_undo σ ("Code: " ++ c.take 60 ++ "...")
      match st1.work_id.bind σ.read with
      | none => errResult st1 σ "LLM parsing error: KeyError"
      | some df =>
        let r := runner c df
        match r.2 with
        | some e =>
          let st2 := { st1 with error := some e, retry_count := st1.retry_count + 1 }
          if st2.MAX_RETRIES ≤ st2.retry_count then
            ({ st2 with
                user_message := "❌ Failed after " ++ toString st2.MAX_RETRIES
                  ++ " attempts. Last error: " ++ e,
                error := none, retry_count := 0, next_node := Node.human_input }, σ)
          else
            ({ st2 with next_node := Node.execute }, σ)
        | none =>
          let w := σ.write r.1
          ({ st1 with
              work_id := some w.1,
              user_message := "✅ Success: " ++ c,
              error := none, retry_count := 0, next_node := Node.eda }, w.2)
  | Proposal.malformed m => errResult st σ ("LLM parsing error: " ++ m)

/-- Iterate `execute_node` (the graph's `execute → execute` self-loop on
`next_node = "execute"`) a fixed number of times. -/
def executeIter (prop : Proposal) (runner : String → Blob → Blob × Option String) :
    Nat → AgentState × MemStore → AgentState × MemStore
  | 0, p => p
  | n + 1, p => executeIter prop runner n (execute_node prop runner p.1 p.2)

/-- A Code Runner that fails on every invocation, reporting `f c b`
(python: returns the untouched dataframe and the error text). -/
def failRunner (f : String → Blob → String) : String → Blob → Blob × Option String :=
  fun c b => (b, some (f c b))

/-! ### Concrete fixtures used by witnesses and counterexamples -/

/-- A sample dataset blob. -/
def blob0 : Blob := [7, 7, 7]

/-- A second, distinct dataset blob (the "transformed" dataset). -/
def blob1 : Blob := [9]

/-- A store holding `blob0` under handle 0. -/
def store0 : MemStore := { db := [(0, blob0)], next := 1 }

/-- A session sitting at the Execute step with `blob0` loaded. -/
def state0 : AgentState := { work_id := some 0, next_node := Node.execute }

/-- A Code Runner that always succeeds, producing `blob1`. -/
def okRunner : String → Blob → Blob × Option String := fun _ _ => (blob1, none)

/-! ### Helper lemmas -/

theorem push_undo_some (st : AgentState) (σ : MemStore) (desc : String) (k : Nat) (b : Blob)
    (hw : st.work_id = some k) (hr : σ.read k = some b) :
    st.push_undo σ desc = { st with history := st.history ++ [{ description := desc, snapshot := b }] } := by
  simp [AgentState.push_undo, hw, hr]

theorem exec_fail_retry (c : String) (f : String → Blob → String)
    (st : AgentState) (σ : MemStore) (k : Nat) (b : Blob)
    (hw : st.work_id = some k) (hr : σ.read k = some b)
    (hlt : st.retry_count + 1 < st.MAX_RETRIES) :
    execute_node (Proposal.code c) (failRunner f) st σ =
      ({ st with
          history := st.history ++ [{ description := "Code: " ++ c.take 60 ++ "...", snapshot := b }],
          error := some (f c b),
          retry_count := st.retry_count + 1,
          next_node := Node.execute }, σ) := by
  have hp := push_undo_some st σ ("Code: " ++ c.take 60 ++ "...") k b hw hr
  simp [execute_node, hp, hw, hr, failRunner, Nat.not_le.mpr hlt]

theorem exec_fail_exhaust (c : String) (f : String → Blob → String)
    (st : AgentState) (σ : MemStore) (k : Nat) (b : Blob)
    (hw : st.work_id = some k) (hr : σ.read k = some b)
    (hge : st.MAX_RETRIES ≤ st.retry_count + 1) :
    execute_node (Proposal.code c) (failRunner f) st σ =
      ({ st with
          history := st.history ++ [{ description := "Code: " ++ c.take 60 ++ "...", snapshot := b }],
          user_message := "❌ Failed after " ++ toString st.MAX_RETRIES
            ++ " attempts. Last error: " ++ f c b,
          error := none,
          retry_count := 0,
          next_node := Node.human_input }, σ) := by
  have hp := push_undo_some st σ ("Code: " ++ c.take 60 ++ "...") k b hw hr
  simp [execute_node, hp, hw, hr, failRunner, hge]

theorem exec_success (c : String) (runner : String → Blob → Blob × Option String)
    (st : AgentState) (σ : MemStore) (k : Nat) (b b' : Blob)
    (hw : st.work_id = some k) (hr : σ.read k = some b)
    (hrun : runner c b = (b', none)) :
    execute_node (Proposal.code c) runner st σ =
      ({ st with
          history := st.history ++ [{ description := "Code: " ++ c.take 60 ++ "...", snapshot := b }],
          work_id := some σ.next,
          user_message := "✅ Success: " ++ c,
          error := none,
          retry_count := 0,
          next_node := Node.eda },
       { db := (σ.next, b') :: σ.db, next := σ.next + 1 }) := by
  have hp := push_undo_some st σ ("Code: " ++ c.take 60 ++ "...") k b hw hr
  simp [execute_node, hp, hw, hr, hrun, MemStore.write]

theorem undo_concat (st : AgentState) (σ : MemStore) (hs : List UndoEntry) (e : UndoEntry)
    (hh : st.history = hs ++ [e]) :
    st.undo σ =
      ({ st with history := hs, work_id := some σ.next },
       { db := (σ.next, e.snapshot) :: σ.db, next := σ.next + 1 },
       "Undone: " ++ e.description) := by
  unfold AgentState.undo
  rw [hh]
  simp [List.getLast?_concat, List.dropLast_concat]

/-! ### Claim theorems -/

/-- C9: for every dataset blob `b`, writing `b` to the Snapshot Store and
then reading the returned handle yields `b` (`read(write(b)) == b`). -/
theorem C9_store_roundtrip (σ : MemStore) (b : Blob) :
    ((σ.write b).2).read (σ.write b).1 = some b := by
  simp [MemStore.write, MemStore.read]

/-- C8: calling `revert()` (`AgentState.undo`) on a session whose undo
stack is empty returns the soft "Nothing to undo." indication, raises no
error, and leaves the state (in particular `work_id` and `raw_id`) and
the store unchanged. -/
theorem C8_empty_undo_noop (st : AgentState) (σ : MemStore) (h : st.history = []) :
    st.undo σ = (st, σ, "Nothing to undo.") := by
  simp [AgentState.undo, h]

/-- C8 witness: the empty-stack no-op at a concrete session. -/
theorem C8_empty_undo_noop_witness :
    AgentState.undo {} {} = ({}, {}, "Nothing to undo.") :=
  C8_empty_undo_noop {} {} rfl

/-- C10: `push_undo` is a silent no-op when no valid dataset is loaded:
if `work_id` is empty or is not a key known to the Snapshot Store, the
state (in particular the undo stack) is returned unchanged and no error
is raised. -/
theorem C10_push_undo_noop (st : AgentState) (σ : MemStore) (d : String)
    (h : st.work_id = none ∨ ∃ k, st.work_id = some k ∧ σ.read k = none) :
    st.push_undo σ d = st := by
  rcases h with h | ⟨k, hk, hr⟩
  · simp [AgentState.push_undo, h]
  · simp [AgentState.push_undo, hk, hr]

/-- C10 witness: no dataset loaded (`work_id` empty) at a concrete
session, and a `work_id` unknown to the store at a second one. -/
theorem C10_push_undo_noop_witness :
    AgentState.push_undo {} {} "op" = {} ∧
      AgentState.push_undo { work_id := some 5 } store0 "op" = { work_id := some 5 } :=
  ⟨C10_push_undo_noop {} {} "op" (Or.inl rfl),
   C10_push_undo_noop { work_id := some 5 } store0 "op" (Or.inr ⟨5, rfl, by decide⟩)⟩

/-- C2: once `raw_id` has been set to a non-empty value, any attempt to
assign it a different value is rejected by the `raw_id_immutable`
validator with a validation error; no updated state is produced, so both
`raw_id` and `work_id` (indeed the whole session) stay as they were. -/
theorem C2_raw_id_immutable (st : AgentState) (v : Option Nat) (h : Nat)
    (hset : st.raw_id = some h) (hne : v ≠ some h) :
    st.assign_raw_id v = Except.error "raw_id is immutable" := by
  simp [AgentState.assign_raw_id, hset, hne]

/-- C2 witness: reassigning a set `raw_id` to a different handle at a
concrete session is rejected. -/
theorem C2_raw_id_immutable_witness :
    AgentState.assign_raw_id { raw_id := some 0 } (some 1) = Except.error "raw_id is immutable" :=
  C2_raw_id_immutable { raw_id := some 0 } (some 1) 0 rfl (by decide)

/-- C3: a failed Execute code attempt does not mutate the dataset:
`work_id` is unchanged, the store receives no new snapshot, and the undo
entry pushed for the attempt remains on the undo stack. Holds on both
the retry branch and the exhaustion branch. -/
theorem C3_failed_attempt_frame (c : String) (f : String → Blob → String)
    (st : AgentState) (σ : MemStore) (k : Nat) (b : Blob)
    (hw : st.work_id = some k) (hr : σ.read k = some b) :
    (execute_node (Proposal.code c) (failRunner f) st σ).1.work_id = st.work_id ∧
    (execute_node (Proposal.code c) (failRunner f) st σ).2 = σ ∧
    (execute_node (Proposal.code c) (failRunner f) st σ).1.history =
      st.history ++ [{ description := "Code: " ++ c.take 60 ++ "...", snapshot := b }] := by
  rcases lt_or_le (st.retry_count + 1) st.MAX_RETRIES with hlt | hge
  · rw [exec_fail_retry c f st σ k b hw hr hlt]
    exact ⟨rfl, rfl, rfl⟩
  · rw [exec_fail_exhaust c f st σ k b hw hr hge]
    exact ⟨rfl, rfl, rfl⟩

/-- C3 witness: a single failed attempt at a concrete session leaves the
handle and store untouched and the pushed entry on the stack. -/
theorem C3_failed_attempt_frame_witness :
    (execute_node (Proposal.code "df") (failRunner fun _ _ => "boom") state0 store0).1.work_id
        = state0.work_id ∧
    (execute_node (Proposal.code "df") (failRunner fun _ _ => "boom") state0 store0).2 = store0 ∧
    (execute_node (Proposal.code "df") (failRunner fun _ _ => "boom") state0 store0).1.history =
      state0.history ++ [{ description := "Code: " ++ ("df" : String).take 60 ++ "...", snapshot := blob0 }] :=
  C3_failed_attempt_frame "df" (fun _ _ => "boom") state0 store0 0 blob0 rfl (by decide)

/-- C4: a successful code-driven mutation (Execute commits a new handle)
immediately followed by `revert()` leaves `work_id` pointing at content
byte-identical to the content it pointed at before the mutation. -/
theorem C4_undo_restores_content (c : String) (runner : String → Blob → Blob × Option String)
    (st : AgentState) (σ : MemStore) (k : Nat) (b b' : Blob)
    (hw : st.work_id = some k) (hr : σ.read k = some b)
    (hrun : runner c b = (b', none)) :
    ∃ j,
      ((execute_node (Proposal.code c) runner st σ).1.undo
          (execute_node (Proposal.code c) runner st σ).2).1.work_id = some j ∧
      (((execute_node (Proposal.code c) runner st σ).1.undo
          (execute_node (Proposal.code c) runner st σ).2).2.1).read j = some b := by
  rw [exec_success c runner st σ k b b' hw hr hrun]
  rw [undo_concat _ _ st.history { description := "Code: " ++ c.take 60 ++ "...", snapshot := b } rfl]
  exact ⟨σ.next + 1, rfl, by simp [MemStore.read]⟩

/-- C4 witness: mutate `blob0` into `blob1` and revert at a concrete
session; the reverted handle reads back `blob0`. -/
theorem C4_undo_restores_content_witness :
    ∃ j,
      ((execute_node (Proposal.code "df = df") okRunner state0 store0).1.undo
          (execute_node (Proposal.code "df = df") okRunner state0 store0).2).1.work_id = some j ∧
      (((execute_node (Proposal.code "df = df") okRunner state0 store0).1.undo
          (execute_node (Proposal.code "df = df") okRunner state0 store0).2).2.1).read j = some blob0 :=
  C4_undo_restores_content "df = df" okRunner state0 store0 0 blob0 blob1 rfl (by decide) rfl

/-- C5 counterexample: revert does NOT set `work_id` to the handle that
was current before the corresponding mutation.  Concretely: the handle
before the mutation is 0; after a successful mutation (committing handle
1) and `revert()`, `work_id` is the fresh handle 2, not 0 — the undo
entry records snapshot bytes, not a handle, and `undo` stores them under
a brand-new key.  The returned string is also `"Undone: <description>"`,
not the bare description. -/
theorem C5_counterexample_fresh_handle :
    state0.work_id = some 0 ∧
    ((execute_node (Proposal.code "df = df") okRunner state0 store0).1.undo
        (execute_node (Proposal.code "df = df") okRunner state0 store0).2).1.work_id = some 2 ∧
    ((execute_node (Proposal.code "df = df") okRunner state0 store0).1.undo
        (execute_node (Proposal.code "df = df") okRunner state0 store0).2).1.work_id
      ≠ state0.work_id ∧
    ((execute_node (Proposal.code "df = df") okRunner state0 store0).1.undo
        (execute_node (Proposal.code "df = df") okRunner state0 store0).2).2.2
      = "Undone: Code: df = df..." := by
  refine ⟨rfl, by decide, by decide, by decide⟩

/-- C5 (amended): for every session with a non-empty undo stack,
`revert()` pops the top undo entry, stores that entry's snapshot under a
fresh handle and sets `work_id` to that fresh handle — whose content is
byte-identical to the dataset recorded before the mutation, though the
handle value itself is new — returns `"Undone: "` followed by the
entry's description, and never modifies `raw_id`. -/
theorem C5_revert_amended (st : AgentState) (σ : MemStore) (hs : List UndoEntry) (e : UndoEntry)
    (hh : st.history = hs ++ [e]) :
    (st.undo σ).1.history = hs ∧
    (st.undo σ).1.work_id = some σ.next ∧
    ((st.undo σ).2.1).read σ.next = some e.snapshot ∧
    (st.undo σ).1.raw_id = st.raw_id ∧
    (st.undo σ).2.2 = "Undone: " ++ e.description := by
  rw [undo_concat st σ hs e hh]
  exact ⟨rfl, rfl, by simp [MemStore.read], rfl, rfl⟩

/-- C5 witness: popping the single entry of a concrete session. -/
theorem C5_revert_amended_witness :
    (AgentState.undo { history := [{ description := "op", snapshot := blob0 }], work_id := some 0, raw_id := some 0 } store0).1.history = [] ∧
    (AgentState.undo { history := [{ description := "op", snapshot := blob0 }], work_id := some 0, raw_id := some 0 } store0).1.work_id = some store0.next ∧
    ((AgentState.undo { history := [{ description := "op", snapshot := blob0 }], work_id := some 0, raw_id := some 0 } store0).2.1).read store0.next = some blob0 ∧
    (AgentState.undo { history := [{ description := "op", snapshot := blob0 }], work_id := some 0, raw_id := some 0 } store0).1.raw_id
      = ({ history := [{ description := "op", snapshot := blob0 }], work_id := some 0, raw_id := some 0 } : AgentState).raw_id ∧
    (AgentState.undo { history := [{ description := "op", snapshot := blob0 }], work_id := some 0, raw_id := some 0 } store0).2.2 = "Undone: " ++ "op" :=
  C5_revert_amended { history := [{ description := "op", snapshot := blob0 }], work_id := some 0, raw_id := some 0 } store0
    [] { description := "op", snapshot := blob0 } rfl

/-- C1: at the Execute step with the default bound (`MAX_RETRIES = 3`)
and a fresh retry counter, when the Proposal Generator returns code and
the Code Runner fails on every invocation, the first two attempts route
back to Execute (automatic retry) and the third — exactly `maxRetries`
consecutive attempts — hands control to `human_input` with
`retry_count = 0`, `error` cleared, the last failure description
surfaced in `user_message`, `work_id` unchanged from before the first
attempt, and the store untouched. -/
theorem C1_retry_bound_exhaustion (c : String) (f : String → Blob → String)
    (st : AgentState) (σ : MemStore) (k : Nat) (b : Blob)
    (hw : st.work_id = some k) (hr : σ.read k = some b)
    (hrc : st.retry_count = 0) (hmax : st.MAX_RETRIES = 3) :
    (executeIter (Proposal.code c) (failRunner f) 1 (st, σ)).1.next_node = Node.execute ∧
    (executeIter (Proposal.code c) (failRunner f) 2 (st, σ)).1.next_node = Node.execute ∧
    (executeIter (Proposal.code c) (failRunner f) 3 (st, σ)).1.next_node = Node.human_input ∧
    (executeIter (Proposal.code c) (failRunner f) 3 (st, σ)).1.retry_count = 0 ∧
    (executeIter (Proposal.code c) (failRunner f) 3 (st, σ)).1.error = none ∧
    (executeIter (Proposal.code c) (failRunner f) 3 (st, σ)).1.user_message
      = "❌ Failed after 3 attempts. Last error: " ++ f c b ∧
    (executeIter (Proposal.code c) (failRunner f) 3 (st, σ)).1.work_id = st.work_id ∧
    (executeIter (Proposal.code c) (failRunner f) 3 (st, σ)).2 = σ := by
  have e1 := exec_fail_retry c f st σ k b hw hr (by omega)
  have e2 := exec_fail_retry c f
    { st with
        history := st.history ++ [{ description := "Code: " ++ c.take 60 ++ "...", snapshot := b }],
        error := some (f c b), retry_count := st.retry_count + 1, next_node := Node.execute }
    σ k b hw hr (by show st.retry_count + 1 + 1 < st.MAX_RETRIES; omega)
  have e3 := exec_fail_exhaust c f
    { st with
        history := (st.history ++ [{ description := "Code: " ++ c.take 60 ++ "...", snapshot := b }])
          ++ [{ description := "Code: " ++ c.take 60 ++ "...", snapshot := b }],
        error := some (f c b), retry_count := st.retry_count + 1 + 1, next_node := Node.execute }
    σ k b hw hr (by show st.MAX_RETRIES ≤ st.retry_count + 1 + 1 + 1; omega)
  have hmsg : ("❌ Failed after " ++ toString (3 : Nat) ++ " attempts. Last error: " : String)
      = "❌ Failed after 3 attempts. Last error: " := by decide
  have u1 : executeIter (Proposal.code c) (failRunner f) 1 (st, σ)
      = execute_node (Proposal.code c) (failRunner f) st σ := rfl
  have u2 : executeIter (Proposal.code c) (failRunner f) 2 (st, σ)
      = execute_node (Proposal.code c) (failRunner f)
          (execute_node (Proposal.code c) (failRunner f) st σ).1
          (execute_node (Proposal.code c) (failRunner f) st σ).2 := rfl
  have u3 : executeIter (Proposal.code c) (failRunner f) 3 (st, σ)
      = execute_node (Proposal.code c) (failRunner f)
          (executeIter (Proposal.code c) (failRunner f) 2 (st, σ)).1
          (executeIter (Proposal.code c) (failRunner f) 2 (st, σ)).2 := rfl
  simp only [u1, u2, u3, e1, e2, e3]
  simp [hmax, hmsg]

/-- C1 witness: a concrete session at Execute with `maxRetries = 3`, a
loaded dataset, and a runner failing with "boom" every time. -/
theorem C1_retry_bound_exhaustion_witness :
    (executeIter (Proposal.code "df") (failRunner fun _ _ => "boom") 1 (state0, store0)).1.next_node = Node.execute ∧
    (executeIter (Proposal.code "df") (failRunner fun _ _ => "boom") 2 (state0, store0)).1.next_node = Node.execute ∧
    (executeIter (Proposal.code "df") (failRunner fun _ _ => "boom") 3 (state0, store0)).1.next_node = Node.human_input ∧
    (executeIter (Proposal.code "df") (failRunner fun _ _ => "boom") 3 (state0, store0)).1.retry_count = 0 ∧
    (executeIter (Proposal.code "df") (failRunner fun _ _ => "boom") 3 (state0, store0)).1.error = none ∧
    (executeIter (Proposal.code "df") (failRunner fun _ _ => "boom") 3 (state0, store0)).1.user_message
      = "❌ Failed after 3 attempts. Last error: " ++ (fun _ _ => "boom") "df" blob0 ∧
    (executeIter (Proposal.code "df") (failRunner fun _ _ => "boom") 3 (state0, store0)).1.work_id = state0.work_id ∧
    (executeIter (Proposal.code "df") (failRunner fun _ _ => "boom") 3 (state0, store0)).2 = store0 :=
  C1_retry_bound_exhaustion "df" (fun _ _ => "boom") state0 store0 0 blob0 rfl (by decide) rfl rfl

/-- C6 counterexample: when malformed Proposal Generator output exhausts
the bound, the engine transitions to `human_input` but — unlike the
failed-code path — does NOT reset `retry_count` to 0, does NOT clear
`error`, and does NOT surface the error in `user_message`.  Concretely:
a session with `retry_count = 2`, `MAX_RETRIES = 3` and
`user_message = "hello"` receiving unparseable output ends with
`retry_count = 3`, `error` still set, and `user_message` untouched. -/
theorem C6_counterexample_no_reset_on_exhaustion :
    (execute_node (Proposal.malformed "No valid JSON found in LLM response") okRunner
        { retry_count := 2, next_node := Node.execute, user_message := "hello" } store0).1.next_node
      = Node.human_input ∧
    ¬((execute_node (Proposal.malformed "No valid JSON found in LLM response") okRunner
        { retry_count := 2, next_node := Node.execute, user_message := "hello" } store0).1.retry_count = 0 ∧
      (execute_node (Proposal.malformed "No valid JSON found in LLM response") okRunner
        { retry_count := 2, next_node := Node.execute, user_message := "hello" } store0).1.error = none) ∧
    (execute_node (Proposal.malformed "No valid JSON found in LLM response") okRunner
        { retry_count := 2, next_node := Node.execute, user_message := "hello" } store0).1.retry_count = 3 ∧
    (execute_node (Proposal.malformed "No valid JSON found in LLM response") okRunner
        { retry_count := 2, next_node := Node.execute, user_message := "hello" } store0).1.error
      = some "LLM parsing error: No valid JSON found in LLM response" ∧
    (execute_node (Proposal.malformed "No valid JSON found in LLM response") okRunner
        { retry_count := 2, next_node := Node.execute, user_message := "hello" } store0).1.user_message
      = "hello" := by
  refine ⟨by decide, by decide, by decide, by decide, by decide⟩

/-- C6 (amended): malformed/unparseable Proposal Generator output counts
against the same shared `retry_count` as a failed code attempt and
retries while strictly under the bound; when the bound is reached it
transitions to `human_input`, but it leaves `retry_count` at the bound,
leaves `error` set to the parse-failure description
(`"LLM parsing error: " ++ msg`), and leaves `user_message` untouched
(the pending message is not overwritten with the error).  The dataset
handle and the store are unchanged either way. -/
theorem C6_malformed_retry_amended (m : String)
    (runner : String → Blob → Blob × Option String) (st : AgentState) (σ : MemStore) :
    (execute_node (Proposal.malformed m) runner st σ).1.error
      = some ("LLM parsing error: " ++ m) ∧
    (execute_node (Proposal.malformed m) runner st σ).1.retry_count = st.retry_count + 1 ∧
    (execute_node (Proposal.malformed m) runner st σ).1.user_message = st.user_message ∧
    (execute_node (Proposal.malformed m) runner st σ).1.work_id = st.work_id ∧
    (execute_node (Proposal.malformed m) runner st σ).2 = σ ∧
    (st.retry_count + 1 < st.MAX_RETRIES →
      (execute_node (Proposal.malformed m) runner st σ).1.next_node = Node.execute) ∧
    (st.MAX_RETRIES ≤ st.retry_count + 1 →
      (execute_node (Proposal.malformed m) runner st σ).1.next_node = Node.human_input) := by
  refine ⟨rfl, rfl, rfl, rfl, rfl, ?_, ?_⟩
  · intro hlt
    simp [execute_node, errResult, hlt]
  · intro hge
    simp [execute_node, errResult, Nat.not_lt.mpr hge]

/-- C6 witness: one malformed outcome at a fresh concrete session
increments the shared counter and routes back to Execute. -/
theorem C6_malformed_retry_amended_witness :
    (execute_node (Proposal.malformed "No valid JSON found in LLM response") okRunner {} store0).1.error
      = some ("LLM parsing error: " ++ "No valid JSON found in LLM response") ∧
    (execute_node (Proposal.malformed "No valid JSON found in LLM response") okRunner {} store0).1.retry_count = 1 ∧
    (execute_node (Proposal.malformed "No valid JSON found in LLM response") okRunner {} store0).1.next_node
      = Node.execute :=
  ⟨(C6_malformed_retry_amended "No valid JSON found in LLM response" okRunner {} store0).1,
   (C6_malformed_retry_amended "No valid JSON found in LLM response" okRunner {} store0).2.1,
   (C6_malformed_retry_amended "No valid JSON found in LLM response" okRunner {} store0).2.2.2.2.2.1 (by decide)⟩

/-- C7: routing at `human_input` on a non-empty (stripped) input, with
the parse conditions exactly as the code defines them: the lowered
command containing "undo" routes to Undo; otherwise containing "export"
or "save" routes to Export; otherwise being exactly "exit" or "quit"
routes to END (Terminal); any other input routes to Execute. -/
theorem C7_await_input_routing (msg : String) (parseCsv : String → Option String)
    (st : AgentState) (h : strTrim msg ≠ "") :
    (strContains (strLower (strTrim msg)) "undo" = true →
      (human_input_node msg parseCsv st).next_node = Node.undo) ∧
    (strContains (strLower (strTrim msg)) "undo" = false →
      (strContains (strLower (strTrim msg)) "export" = true ∨ strContains (strLower (strTrim msg)) "save" = true) →
      (human_input_node msg parseCsv st).next_node = Node.«export») ∧
    (strContains (strLower (strTrim msg)) "undo" = false →
      strContains (strLower (strTrim msg)) "export" = false →
      strContains (strLower (strTrim msg)) "save" = false →
      (strLower (strTrim msg) = "exit" ∨ strLower (strTrim msg) = "quit") →
      (human_input_node msg parseCsv st).next_node = Node.END) ∧
    (strContains (strLower (strTrim msg)) "undo" = false →
      strContains (strLower (strTrim msg)) "export" = false →
      strContains (strLower (strTrim msg)) "save" = false →
      strLower (strTrim msg) ≠ "exit" → strLower (strTrim msg) ≠ "quit" →
      (human_input_node msg parseCsv st).next_node = Node.execute) := by
  refine ⟨?_, ?_, ?_, ?_⟩
  · intro h1
    simp [human_input_node, h, h1]
  · intro h1 h2
    rcases h2 with h2 | h2 <;> simp [human_input_node, h, h1, h2]
  · intro h1 h2 h3 h4
    rcases h4 with h4 | h4 <;> simp [human_input_node, h, h1, h2, h3, h4] <;> decide
  · intro h1 h2 h3 h4 h5
    simp [human_input_node, h, h1, h2, h3, h4, h5]

/-- C7 witness: each transition-table row exercised at a concrete input. -/
theorem C7_await_input_routing_witness :
    (human_input_node "undo" (fun _ => none) {}).next_node = Node.undo ∧
    (human_input_node "save as out.csv" (fun _ => none) {}).next_node = Node.«export» ∧
    (human_input_node "quit" (fun _ => none) {}).next_node = Node.END ∧
    (human_input_node "drop column Age" (fun _ => none) {}).next_node = Node.execute :=
  ⟨(C7_await_input_routing "undo" (fun _ => none) {} (by decide)).1 (by decide),
   (C7_await_input_routing "save as out.csv" (fun _ => none) {} (by decide)).2.1 (by decide)
     (Or.inr (by decide)),
   (C7_await_input_routing "quit" (fun _ => none) {} (by decide)).2.2.1 (by decide) (by decide)
     (by decide) (Or.inr (by decide)),
   (C7_await_input_routing "drop column Age" (fun _ => none) {} (by decide)).2.2.2 (by decide)
     (by decide) (by decide) (by decide) (by decide)⟩

end DataAgent
